import Mathlib

/-!
Verification of the Urban Dictionary lookup widget (src/public/script.js).

The script is a single browser-side controller bound to a form submit
event.  We embed it shallowly: the DOM fields written by the script become
fields of a `UIState` record, the outcome of the one network call becomes
an explicit `TransportResult` argument, and the submit handler becomes a
pure state transformer `handleSubmit`.  JavaScript truthiness on the
optional string and numeric fields is modelled explicitly (`jsOr`,
`jsOrNat`): an absent or empty string is falsy, an absent number defaults
to zero.

Instrumentation: the state carries three counters (`disableCount`,
`enableCount`, `fetchCalls`) incremented at the exact program points where
the script disables the button, re-enables it, and issues the network
request.  They let us state the claims about button discipline and about
"no network call is issued".
-/

namespace UrbanLookup

/-- One entry of the provider response `list` array.  Every field may be
absent in the JSON, hence `Option`.  The script reads `word`,
`definition`, `example` (named `ex` here because `example` is a Lean
keyword), `author`, `thumbs_up` and `thumbs_down`. -/
structure Item where
  word : Option String
  definition : Option String
  ex : Option String
  author : Option String
  thumbs_up : Option Nat
  thumbs_down : Option Nat
deriving Repr, DecidableEq

/-- Parsed JSON body of the provider response: an object that may or may
not carry a `list` array (the script checks `!data.list`; an absent or
null `list` is falsy, an array — even empty — is truthy). -/
structure ApiResponse where
  list : Option (List Item)
deriving Repr, DecidableEq

/-- The outcome of the one outbound request, supplied to the model as
data.  `netError msg` is a transport failure (the `fetch` promise
rejects with message `msg`).  `response status body` is a completed HTTP
exchange with the given status code; `body` is the outcome of
`response.json()`: `Except.ok` a parsed body, or `Except.error msg` when
the body is not valid JSON and the json promise rejects. -/
inductive TransportResult where
  | netError (msg : String)
  | response (status : Nat) (body : Except String ApiResponse)

/-- The DOM state the script reads and writes, plus the instrumentation
counters.  `statusType` is the CSS modifier class passed to `setStatus`
("", "success" or "error"); `resultHidden` is whether `#result` carries
the `hidden` class; the five `result*` fields are the text contents of
the five result slots. -/
structure UIState where
  statusText : String
  statusType : String
  btnDisabled : Bool
  resultHidden : Bool
  resultTerm : String
  resultDefinition : String
  resultExample : String
  resultAuthor : String
  resultVotes : String
  disableCount : Nat
  enableCount : Nat
  fetchCalls : Nat
deriving Repr, DecidableEq

/-- `setStatus(message, type)`: overwrite the status banner text and its
modifier class. -/
def setStatus (s : UIState) (message ty : String) : UIState :=
  { s with statusText := message, statusType := ty }

/-- `clearResult()`: hide the result article and blank all five fields. -/
def clearResult (s : UIState) : UIState :=
  { s with
    resultHidden := true
    resultTerm := ""
    resultDefinition := ""
    resultExample := ""
    resultAuthor := ""
    resultVotes := "" }

/-- The character predicate of the regex in `cleanText`: keep a character
unless it is a literal square bracket. -/
def keepChar (c : Char) : Bool :=
  !(c == '[' || c == ']')

/-- `text.replace(/\[|\]/g, "")`: delete every literal square bracket. -/
def stripBrackets (s : String) : String :=
  String.mk (s.data.filter keepChar)

/-- `cleanText(text)`: return "" for a falsy argument (null, undefined or
the empty string), otherwise strip the square brackets. -/
def cleanText : Option String → String
  | none => ""
  | some s => if s = "" then "" else stripBrackets s

/-- Strip leading and trailing whitespace from a character list. -/
def trimChars (l : List Char) : List Char :=
  ((l.dropWhile Char.isWhitespace).reverse.dropWhile Char.isWhitespace).reverse

/-- `value.trim()`: the input with leading and trailing whitespace
removed. -/
def jsTrim (s : String) : String :=
  String.mk (trimChars s.data)

/-- JavaScript `v || d` for an optional string value: the default wins
when the value is absent or empty (both falsy). -/
def jsOr (v : Option String) (d : String) : String :=
  match v with
  | none => d
  | some s => if s = "" then d else s

/-- JavaScript `v || 0` for an optional count: an absent value defaults
to 0 (and `0 || 0` is 0 as well). -/
def jsOrNat (v : Option Nat) : Nat :=
  v.getD 0

/-- `response.ok`: the status is in the 2xx range (200–299). -/
def isOk (status : Nat) : Bool :=
  200 ≤ status && status ≤ 299

/-- `fetchDefinition(term)`.  A transport failure propagates as a
rejection.  On a completed exchange with a non-2xx status the function
throws `Request failed with status <status>` before touching the body;
on a 2xx status it returns `response.json()` — the parsed body, or the
parse failure when the body is not JSON. -/
def fetchDefinition : TransportResult → Except String ApiResponse
  | .netError msg => .error msg
  | .response status body =>
      if isOk status then body
      else .error ("Request failed with status " ++ toString status)

/-- `showResult(item)`: populate the five result fields and unhide the
article.  `word`, `definition` and the example text pass through
`cleanText`; the author and vote lines are interpolated directly. -/
def showResult (s : UIState) (item : Item) : UIState :=
  let exText := cleanText (some (jsOr item.ex ""))
  { s with
    resultTerm := cleanText (some (jsOr item.word "Unknown term"))
    resultDefinition := cleanText (some (jsOr item.definition "No definition available."))
    resultExample := if exText = "" then "Example: none provided." else "Example: " ++ exText
    resultAuthor := "Author: " ++ jsOr item.author "unknown"
    resultVotes := "Votes: " ++ toString (jsOrNat item.thumbs_up) ++ " up / "
      ++ toString (jsOrNat item.thumbs_down) ++ " down"
    resultHidden := false }

/-- `window.APP_CONFIG?.RAPIDAPI_KEY || "YOUR_RAPIDAPI_KEY"`: the
configured key, falling back to the placeholder when the configuration
value is absent or empty. -/
def resolvedKey (cfgKey : Option String) : String :=
  jsOr cfgKey "YOUR_RAPIDAPI_KEY"

/-- `searchBtn.disabled = true`, with the disable event counted. -/
def disableBtn (s : UIState) : UIState :=
  { s with btnDisabled := true, disableCount := s.disableCount + 1 }

/-- `searchBtn.disabled = false`, with the enable event counted. -/
def enableBtn (s : UIState) : UIState :=
  { s with btnDisabled := false, enableCount := s.enableCount + 1 }

/-- The body of the `try` block after the awaited fetch settles, applied
to its outcome: the catch branch on a rejection, the empty-list check and
the render of `data.list[0]` on a resolution. -/
def handleOutcome (term : String) (r : Except String ApiResponse) (s : UIState) : UIState :=
  match r with
  | .error msg => setStatus s ("Unable to fetch results. " ++ msg) "error"
  | .ok data =>
      match data.list with
      | none => setStatus s ("No results found for \"" ++ term ++ "\".") "error"
      | some [] => setStatus s ("No results found for \"" ++ term ++ "\".") "error"
      | some (item :: _) =>
          setStatus (showResult s item)
            ("Showing first definition for \"" ++ term ++ "\".") "success"

/-- The post-validation part of the submit handler: disable the button,
show the searching status, clear the previous result, issue the one
request (counted), dispatch on its outcome, and — the `finally` block —
re-enable the button on every path out of the try. -/
def runLookup (term : String) (t : TransportResult) (s : UIState) : UIState :=
  let s1 := clearResult (setStatus (disableBtn s) ("Searching for \"" ++ term ++ "\"...") "")
  let s2 := { s1 with fetchCalls := s1.fetchCalls + 1 }
  enableBtn (handleOutcome term (fetchDefinition t) s2)

/-- The submit listener.  `cfgKey` is the configured RapidAPI key (absent
when `config.js` did not set it), `inputValue` the raw content of the
term input, `t` the outcome the network would produce were a request
issued. -/
def handleSubmit (cfgKey : Option String) (inputValue : String)
    (t : TransportResult) (s : UIState) : UIState :=
  let term := jsTrim inputValue
  if term = "" then
    setStatus (clearResult s) "Please enter a term to search." "error"
  else if resolvedKey cfgKey = "" ∨ resolvedKey cfgKey = "YOUR_RAPIDAPI_KEY" then
    setStatus (clearResult s) "Add your RapidAPI key in .env before searching." "error"
  else
    runLookup term t s

/-- The page as loaded: empty status, button enabled, result hidden and
blank, all counters zero. -/
def initState : UIState :=
  { statusText := ""
    statusType := ""
    btnDisabled := false
    resultHidden := true
    resultTerm := ""
    resultDefinition := ""
    resultExample := ""
    resultAuthor := ""
    resultVotes := ""
    disableCount := 0
    enableCount := 0
    fetchCalls := 0 }

/-- Whether a string contains a literal square bracket. -/
def hasBracket (s : String) : Bool :=
  s.data.any (fun c => c == '[' || c == ']')

/-- The entry of the worked display check: the spec response
`list: [{word: foo, definition: a [thing], example: empty, author: empty,
thumbs_up: 5}]`, the `thumbs_down` field absent. -/
def sampleItem : Item :=
  { word := some "foo"
    definition := some "a [thing]"
    ex := some ""
    author := some ""
    thumbs_up := some 5
    thumbs_down := none }

/-- A successful exchange whose body parses to a one-entry list. -/
def okResponse : TransportResult :=
  .response 200 (.ok { list := some [sampleItem] })

/-- An entry whose author name contains square brackets, to probe the
sanitization of the author line. -/
def bracketAuthorItem : Item :=
  { word := some "w"
    definition := some "d"
    ex := some "e"
    author := some "[mika]"
    thumbs_up := none
    thumbs_down := none }

/-- A completed exchange whose body is a `list: []` response. -/
def emptyListResponse : TransportResult :=
  .response 200 (.ok { list := some [] })

/-- A completed exchange with HTTP status 500 and a parseable body. -/
def failedResponse : TransportResult :=
  .response 500 (.ok { list := none })

/-! ### Helper lemmas -/

theorem filter_keep_no_bracket (l : List Char) :
    (l.filter keepChar).any (fun c => c == '[' || c == ']') = false := by
  induction l with
  | nil => rfl
  | cons c cs ih =>
      cases hb : (c == '[' || c == ']') with
      | true => simp [List.filter_cons, keepChar, hb, ih]
      | false => simp [List.filter_cons, keepChar, hb, ih]

theorem hasBracket_stripBrackets (s : String) :
    hasBracket (stripBrackets s) = false :=
  filter_keep_no_bracket s.data

theorem hasBracket_cleanText (x : Option String) :
    hasBracket (cleanText x) = false := by
  rcases x with _ | s
  · rfl
  · simp only [cleanText]
    by_cases h : s = ""
    · rw [if_pos h]
      rfl
    · rw [if_neg h]
      exact hasBracket_stripBrackets s

theorem hasBracket_append (a b : String) :
    hasBracket (a ++ b) = (hasBracket a || hasBracket b) := by
  rcases a with ⟨la⟩
  rcases b with ⟨lb⟩
  show (la ++ lb).any _ = ((la.any _) || (lb.any _))
  exact List.any_append

theorem filter_keep_idem (l : List Char) :
    (l.filter keepChar).filter keepChar = l.filter keepChar := by
  induction l with
  | nil => rfl
  | cons c cs ih =>
      cases hk : keepChar c <;> simp [List.filter_cons, hk, ih]

theorem stripBrackets_idem (s : String) :
    stripBrackets (stripBrackets s) = stripBrackets s :=
  congrArg String.mk (filter_keep_idem s.data)

theorem cleanText_idem (x : Option String) :
    cleanText (some (cleanText x)) = cleanText x := by
  rcases x with _ | s
  · rfl
  · simp only [cleanText]
    by_cases h : s = ""
    · simp [h]
    · rw [if_neg h]
      show (if stripBrackets s = "" then "" else stripBrackets (stripBrackets s))
          = stripBrackets s
      by_cases h2 : stripBrackets s = ""
      · rw [if_pos h2]
        exact h2.symm
      · rw [if_neg h2]
        exact stripBrackets_idem s

theorem handleOutcome_disableCount (term : String) (r : Except String ApiResponse)
    (s : UIState) : (handleOutcome term r s).disableCount = s.disableCount := by
  rcases r with msg | data
  · rfl
  · obtain ⟨list⟩ := data
    rcases list with _ | l
    · rfl
    · rcases l with _ | ⟨item, rest⟩ <;> rfl

theorem handleOutcome_enableCount (term : String) (r : Except String ApiResponse)
    (s : UIState) : (handleOutcome term r s).enableCount = s.enableCount := by
  rcases r with msg | data
  · rfl
  · obtain ⟨list⟩ := data
    rcases list with _ | l
    · rfl
    · rcases l with _ | ⟨item, rest⟩ <;> rfl

/-! ### Claim theorems -/

/-- C1 (amended): for every submitted lookup that passes validation
(non-empty trimmed term, non-placeholder key), whatever the outcome of
the request — success, empty result list, parse failure or rejection —
the handler disables the trigger exactly once and re-enables it exactly
once, and the trigger ends the attempt enabled. -/
theorem button_disabled_once_reenabled_once (cfgKey : Option String)
    (inputValue : String) (t : TransportResult) (s : UIState)
    (hterm : ¬ jsTrim inputValue = "")
    (hkey : ¬(resolvedKey cfgKey = "" ∨ resolvedKey cfgKey = "YOUR_RAPIDAPI_KEY")) :
    (handleSubmit cfgKey inputValue t s).disableCount = s.disableCount + 1 ∧
    (handleSubmit cfgKey inputValue t s).enableCount = s.enableCount + 1 ∧
    (handleSubmit cfgKey inputValue t s).btnDisabled = false := by
  simp only [handleSubmit]
  rw [if_neg hterm, if_neg hkey]
  simp only [runLookup]
  refine ⟨?_, ?_, rfl⟩
  · simp [enableBtn, handleOutcome_disableCount, clearResult, setStatus, disableBtn]
  · simp [enableBtn, handleOutcome_enableCount, clearResult, setStatus, disableBtn]

/-- C1 witness: the amended claim at a concrete successful attempt. -/
theorem button_disabled_once_reenabled_once_w :
    (handleSubmit (some "k") "foo" okResponse initState).disableCount
        = initState.disableCount + 1 ∧
    (handleSubmit (some "k") "foo" okResponse initState).enableCount
        = initState.enableCount + 1 ∧
    (handleSubmit (some "k") "foo" okResponse initState).btnDisabled = false :=
  button_disabled_once_reenabled_once (some "k") "foo" okResponse initState
    (by decide) (by decide)

/-- C1 counterexample: on a concrete completed successful attempt from
the freshly loaded page, the trigger is enabled exactly as many times as
it is disabled (once each), not one time more: the enable count does not
equal the disable count plus one. -/
theorem button_plus_one_balance_false :
    (handleSubmit (some "k") "foo" okResponse initState).disableCount = 1 ∧
    (handleSubmit (some "k") "foo" okResponse initState).enableCount = 1 ∧
    ¬((handleSubmit (some "k") "foo" okResponse initState).enableCount
        = (handleSubmit (some "k") "foo" okResponse initState).disableCount + 1) := by
  decide

/-- C2: for every empty or whitespace-only input, the handler issues no
network call, clears any shown result, and sets the status banner to the
enter-a-term error state. -/
theorem empty_input_no_request (cfgKey : Option String) (inputValue : String)
    (t : TransportResult) (s : UIState) (h : jsTrim inputValue = "") :
    (handleSubmit cfgKey inputValue t s).fetchCalls = s.fetchCalls ∧
    (handleSubmit cfgKey inputValue t s).resultHidden = true ∧
    (handleSubmit cfgKey inputValue t s).resultTerm = "" ∧
    (handleSubmit cfgKey inputValue t s).resultDefinition = "" ∧
    (handleSubmit cfgKey inputValue t s).resultExample = "" ∧
    (handleSubmit cfgKey inputValue t s).resultAuthor = "" ∧
    (handleSubmit cfgKey inputValue t s).resultVotes = "" ∧
    (handleSubmit cfgKey inputValue t s).statusText = "Please enter a term to search." ∧
    (handleSubmit cfgKey inputValue t s).statusType = "error" := by
  simp only [handleSubmit]
  rw [if_pos h]
  exact ⟨rfl, rfl, rfl, rfl, rfl, rfl, rfl, rfl, rfl⟩

/-- C2 witness: the claim at a concrete whitespace-only submission. -/
theorem empty_input_no_request_w :
    (handleSubmit (some "k") "   " okResponse initState).fetchCalls
        = initState.fetchCalls ∧
    (handleSubmit (some "k") "   " okResponse initState).resultHidden = true ∧
    (handleSubmit (some "k") "   " okResponse initState).resultTerm = "" ∧
    (handleSubmit (some "k") "   " okResponse initState).resultDefinition = "" ∧
    (handleSubmit (some "k") "   " okResponse initState).resultExample = "" ∧
    (handleSubmit (some "k") "   " okResponse initState).resultAuthor = "" ∧
    (handleSubmit (some "k") "   " okResponse initState).resultVotes = "" ∧
    (handleSubmit (some "k") "   " okResponse initState).statusText
        = "Please enter a term to search." ∧
    (handleSubmit (some "k") "   " okResponse initState).statusType = "error" :=
  empty_input_no_request (some "k") "   " okResponse initState (by decide)

/-- C3: for every submission with a non-empty term made while the
configured credential is absent or the known placeholder, the handler
issues no network call, clears the result, and sets the missing-key
error status. -/
theorem missing_key_no_request (cfgKey : Option String) (inputValue : String)
    (t : TransportResult) (s : UIState)
    (hterm : ¬ jsTrim inputValue = "")
    (hkey : cfgKey = none ∨ cfgKey = some "YOUR_RAPIDAPI_KEY") :
    (handleSubmit cfgKey inputValue t s).fetchCalls = s.fetchCalls ∧
    (handleSubmit cfgKey inputValue t s).resultHidden = true ∧
    (handleSubmit cfgKey inputValue t s).resultTerm = "" ∧
    (handleSubmit cfgKey inputValue t s).resultDefinition = "" ∧
    (handleSubmit cfgKey inputValue t s).resultExample = "" ∧
    (handleSubmit cfgKey inputValue t s).resultAuthor = "" ∧
    (handleSubmit cfgKey inputValue t s).resultVotes = "" ∧
    (handleSubmit cfgKey inputValue t s).statusText
        = "Add your RapidAPI key in .env before searching." ∧
    (handleSubmit cfgKey inputValue t s).statusType = "error" := by
  have hkey2 : resolvedKey cfgKey = "" ∨ resolvedKey cfgKey = "YOUR_RAPIDAPI_KEY" := by
    rcases hkey with h | h <;> subst h <;> exact Or.inr rfl
  simp only [handleSubmit]
  rw [if_neg hterm, if_pos hkey2]
  exact ⟨rfl, rfl, rfl, rfl, rfl, rfl, rfl, rfl, rfl⟩

/-- C3 witness: the claim at a concrete submission with the key absent. -/
theorem missing_key_no_request_w :
    (handleSubmit none "foo" okResponse initState).fetchCalls
        = initState.fetchCalls ∧
    (handleSubmit none "foo" okResponse initState).resultHidden = true ∧
    (handleSubmit none "foo" okResponse initState).resultTerm = "" ∧
    (handleSubmit none "foo" okResponse initState).resultDefinition = "" ∧
    (handleSubmit none "foo" okResponse initState).resultExample = "" ∧
    (handleSubmit none "foo" okResponse initState).resultAuthor = "" ∧
    (handleSubmit none "foo" okResponse initState).resultVotes = "" ∧
    (handleSubmit none "foo" okResponse initState).statusText
        = "Add your RapidAPI key in .env before searching." ∧
    (handleSubmit none "foo" okResponse initState).statusType = "error" :=
  missing_key_no_request none "foo" okResponse initState (by decide) (Or.inl rfl)

/-- C4: for every validated submission whose request resolves with a
body whose `list` is absent or empty, the result panel ends the attempt
hidden with all five fields blank, and the status banner is the
no-results error state naming the submitted term. -/
theorem empty_list_no_results (cfgKey : Option String) (inputValue : String)
    (t : TransportResult) (s : UIState) (data : ApiResponse)
    (hterm : ¬ jsTrim inputValue = "")
    (hkey : ¬(resolvedKey cfgKey = "" ∨ resolvedKey cfgKey = "YOUR_RAPIDAPI_KEY"))
    (hfetch : fetchDefinition t = .ok data)
    (hlist : data.list = none ∨ data.list = some []) :
    (handleSubmit cfgKey inputValue t s).resultHidden = true ∧
    (handleSubmit cfgKey inputValue t s).resultTerm = "" ∧
    (handleSubmit cfgKey inputValue t s).resultDefinition = "" ∧
    (handleSubmit cfgKey inputValue t s).resultExample = "" ∧
    (handleSubmit cfgKey inputValue t s).resultAuthor = "" ∧
    (handleSubmit cfgKey inputValue t s).resultVotes = "" ∧
    (handleSubmit cfgKey inputValue t s).statusText
        = "No results found for \"" ++ jsTrim inputValue ++ "\"." ∧
    (handleSubmit cfgKey inputValue t s).statusType = "error" := by
  simp only [handleSubmit]
  rw [if_neg hterm, if_neg hkey]
  simp only [runLookup]
  rw [hfetch]
  obtain ⟨list⟩ := data
  rcases list with _ | l
  · exact ⟨rfl, rfl, rfl, rfl, rfl, rfl, rfl, rfl⟩
  · rcases l with _ | ⟨item, rest⟩
    · exact ⟨rfl, rfl, rfl, rfl, rfl, rfl, rfl, rfl⟩
    · rcases hlist with h | h <;> simp at h

/-- C4 witness: the claim at a concrete attempt answered with an empty
list. -/
theorem empty_list_no_results_w :
    (handleSubmit (some "k") "foo" emptyListResponse initState).resultHidden = true ∧
    (handleSubmit (some "k") "foo" emptyListResponse initState).resultTerm = "" ∧
    (handleSubmit (some "k") "foo" emptyListResponse initState).resultDefinition = "" ∧
    (handleSubmit (some "k") "foo" emptyListResponse initState).resultExample = "" ∧
    (handleSubmit (some "k") "foo" emptyListResponse initState).resultAuthor = "" ∧
    (handleSubmit (some "k") "foo" emptyListResponse initState).resultVotes = "" ∧
    (handleSubmit (some "k") "foo" emptyListResponse initState).statusText
        = "No results found for \"" ++ jsTrim "foo" ++ "\"." ∧
    (handleSubmit (some "k") "foo" emptyListResponse initState).statusType = "error" :=
  empty_list_no_results (some "k") "foo" emptyListResponse initState
    { list := some [] } (by decide) (by decide) rfl (Or.inr rfl)

/-- C5: for the spec entry (word foo, definition a [thing] with
brackets, empty example, empty author, 5 thumbs up, thumbs down absent),
the result view renders definition text a thing, example text
Example: none provided., author text Author: unknown, and votes text
Votes: 5 up / 0 down. -/
theorem sample_entry_rendering (s : UIState) :
    (showResult s sampleItem).resultDefinition = "a thing" ∧
    (showResult s sampleItem).resultExample = "Example: none provided." ∧
    (showResult s sampleItem).resultAuthor = "Author: unknown" ∧
    (showResult s sampleItem).resultVotes = "Votes: 5 up / 0 down" :=
  ⟨rfl, rfl, rfl, rfl⟩

/-- C6 (amended): the term, definition and example values pass through
the bracket-stripping sanitizer before display, so for every rendered
entry those three fields contain no literal square bracket; the author
line is interpolated without sanitization and the vote counts are
numeric. -/
theorem cleaned_fields_bracket_free (s : UIState) (item : Item) :
    hasBracket (showResult s item).resultTerm = false ∧
    hasBracket (showResult s item).resultDefinition = false ∧
    hasBracket (showResult s item).resultExample = false := by
  refine ⟨hasBracket_cleanText _, hasBracket_cleanText _, ?_⟩
  show hasBracket (if cleanText (some (jsOr item.ex "")) = ""
      then "Example: none provided."
      else "Example: " ++ cleanText (some (jsOr item.ex ""))) = false
  by_cases h : cleanText (some (jsOr item.ex "")) = ""
  · rw [if_pos h]
    rfl
  · rw [if_neg h, hasBracket_append]
    rw [hasBracket_cleanText]
    rfl

/-- C6 counterexample: an entry whose author name carries brackets is
rendered with the brackets intact — the author line does not pass
through the sanitizer, so a rendered field can contain a literal
bracket. -/
theorem author_field_unsanitized :
    (showResult initState bracketAuthorItem).resultAuthor = "Author: [mika]" ∧
    hasBracket (showResult initState bracketAuthorItem).resultAuthor = true := by
  decide

/-- C7 (amended): the provider lookup rejects when the transport fails
(propagating that failure), when the HTTP status is outside the 2xx
range (the failure message carrying the status code), and also when a
2xx body fails to parse as JSON; for every 2xx response whose body
parses it resolves with the parsed body. -/
theorem fetchDefinition_reject_resolve_spec (t : TransportResult) :
    (∀ msg, t = .netError msg → fetchDefinition t = .error msg) ∧
    (∀ status body, t = .response status body → isOk status = false →
        fetchDefinition t = .error ("Request failed with status " ++ toString status)) ∧
    (∀ status data, t = .response status (.ok data) → isOk status = true →
        fetchDefinition t = .ok data) ∧
    (∀ status msg, t = .response status (.error msg) → isOk status = true →
        fetchDefinition t = .error msg) := by
  refine ⟨?_, ?_, ?_, ?_⟩
  · intro msg heq
    subst heq
    rfl
  · intro status body heq hok
    subst heq
    simp [fetchDefinition, hok]
  · intro status data heq hok
    subst heq
    simp [fetchDefinition, hok]
  · intro status msg heq hok
    subst heq
    simp [fetchDefinition, hok]

/-- C7 witness: the amended claim at a concrete HTTP 500 exchange. -/
theorem fetchDefinition_reject_resolve_spec_w :
    fetchDefinition failedResponse
      = .error ("Request failed with status " ++ toString 500) :=
  (fetchDefinition_reject_resolve_spec failedResponse).2.1 500
    (.ok { list := none }) rfl rfl

/-- C7 counterexample: a 2xx exchange whose body is not valid JSON makes
the lookup reject with the parse failure, so the lookup does not reject
exactly on transport failures and non-2xx statuses, and not every 2xx
response resolves with a parsed body. -/
theorem parse_failure_rejects_on_2xx :
    isOk 200 = true ∧
    fetchDefinition (.response 200 (.error "Unexpected end of JSON input"))
      = .error "Unexpected end of JSON input" :=
  ⟨rfl, rfl⟩

/-- C8: for every validated attempt in which the provider call fails —
transport rejection, non-2xx status or parse failure — the status banner
ends the attempt in the error state carrying the failure message after
the generic prefix, and the trigger is re-enabled. -/
theorem failure_status_and_reenable (cfgKey : Option String) (inputValue : String)
    (t : TransportResult) (s : UIState) (msg : String)
    (hterm : ¬ jsTrim inputValue = "")
    (hkey : ¬(resolvedKey cfgKey = "" ∨ resolvedKey cfgKey = "YOUR_RAPIDAPI_KEY"))
    (hfetch : fetchDefinition t = .error msg) :
    (handleSubmit cfgKey inputValue t s).statusText
        = "Unable to fetch results. " ++ msg ∧
    (handleSubmit cfgKey inputValue t s).statusType = "error" ∧
    (handleSubmit cfgKey inputValue t s).btnDisabled = false := by
  simp only [handleSubmit]
  rw [if_neg hterm, if_neg hkey]
  simp only [runLookup]
  rw [hfetch]
  exact ⟨rfl, rfl, rfl⟩

/-- C8 witness: the claim at a concrete HTTP 500 attempt. -/
theorem failure_status_and_reenable_w :
    (handleSubmit (some "k") "foo" failedResponse initState).statusText
        = "Unable to fetch results. " ++ ("Request failed with status " ++ toString 500) ∧
    (handleSubmit (some "k") "foo" failedResponse initState).statusType = "error" ∧
    (handleSubmit (some "k") "foo" failedResponse initState).btnDisabled = false :=
  failure_status_and_reenable (some "k") "foo" failedResponse initState
    ("Request failed with status " ++ toString 500) (by decide) (by decide) rfl

/-- C9: the sanitizer is idempotent and total — cleaning a cleaned
string changes nothing, and a null, undefined or empty input cleans to
the empty string. -/
theorem cleanText_idempotent_total (s : String) :
    cleanText (some (cleanText (some s))) = cleanText (some s) ∧
    cleanText none = "" ∧
    cleanText (some "") = "" :=
  ⟨cleanText_idem (some s), rfl, rfl⟩

/-- C10: for every validated attempt in which the provider call rejects,
the result panel ends the attempt hidden with all five fields blank —
the result is cleared before the request and the failure branch never
repopulates it. -/
theorem failed_attempt_result_hidden (cfgKey : Option String) (inputValue : String)
    (t : TransportResult) (s : UIState) (msg : String)
    (hterm : ¬ jsTrim inputValue = "")
    (hkey : ¬(resolvedKey cfgKey = "" ∨ resolvedKey cfgKey = "YOUR_RAPIDAPI_KEY"))
    (hfetch : fetchDefinition t = .error msg) :
    (handleSubmit cfgKey inputValue t s).resultHidden = true ∧
    (handleSubmit cfgKey inputValue t s).resultTerm = "" ∧
    (handleSubmit cfgKey inputValue t s).resultDefinition = "" ∧
    (handleSubmit cfgKey inputValue t s).resultExample = "" ∧
    (handleSubmit cfgKey inputValue t s).resultAuthor = "" ∧
    (handleSubmit cfgKey inputValue t s).resultVotes = "" := by
  simp only [handleSubmit]
  rw [if_neg hterm, if_neg hkey]
  simp only [runLookup]
  rw [hfetch]
  exact ⟨rfl, rfl, rfl, rfl, rfl, rfl⟩

/-- C10 witness: the claim at a concrete transport failure after a
previously rendered result. -/
theorem failed_attempt_result_hidden_w :
    (handleSubmit (some "k") "foo" (.netError "Failed to fetch")
        (showResult initState sampleItem)).resultHidden = true ∧
    (handleSubmit (some "k") "foo" (.netError "Failed to fetch")
        (showResult initState sampleItem)).resultTerm = "" ∧
    (handleSubmit (some "k") "foo" (.netError "Failed to fetch")
        (showResult initState sampleItem)).resultDefinition = "" ∧
    (handleSubmit (some "k") "foo" (.netError "Failed to fetch")
        (showResult initState sampleItem)).resultExample = "" ∧
    (handleSubmit (some "k") "foo" (.netError "Failed to fetch")
        (showResult initState sampleItem)).resultAuthor = "" ∧
    (handleSubmit (some "k") "foo" (.netError "Failed to fetch")
        (showResult initState sampleItem)).resultVotes = "" :=
  failed_attempt_result_hidden (some "k") "foo" (.netError "Failed to fetch")
    (showResult initState sampleItem) "Failed to fetch" (by decide) (by decide) rfl

end UrbanLookup
